import Mathlib

/-!
Verification of the `transport` HTTP support library.

The development shallowly embeds the Go sources:
  * `error_handler.go`  — error-code/status-code mapping, error responses,
    `CheckError` response parsing;
  * `middleware.go`     — `SetCORS` middleware and `StatusResponseWriter`;
  * the API helper file — `NewAPI`, `decode`/`DecodeJSON`, `Respond`,
    `Write`/`write`, `noopCloser`.

Go machine integers are modelled as `Nat` (HTTP status codes, byte counts;
all values involved are small and non-negative) or `Int` where the Go zero
value 0 is significant (`StatusResponseWriter.statusCode`).  Go `error`
values are modelled by the inductive `GoErr`; a nilable error is
`Option GoErr`.  Effects on an `http.ResponseWriter` are modelled as a
trace of `Event`s.
-/

/-- Error-code string constants.  They mirror the constants of the
`github.com/deepauto-io/errors` dependency (an influxdb-style taxonomy);
the string values are the ones listed in the spec's taxonomy (§3). -/
def EInternal : String := "internal"

def ENotImplemented : String := "not implemented"

def EBadGateway : String := "bad gateway"

def EInvalid : String := "invalid"

def EUnprocessableEntity : String := "unprocessable entity"

def EEmptyValue : String := "empty value"

def EConflict : String := "conflict"

def ENotFound : String := "not found"

def EUnavailable : String := "unavailable"

def EForbidden : String := "forbidden"

def ETooManyRequests : String := "too many requests"

def EUnauthorized : String := "unauthorized"

def EMethodNotAllowed : String := "method not allowed"

def ETooLarge : String := "too large"

def EPaymentRequired : String := "payment required"

def EUpgradeRequired : String := "upgrade required"

def EStatusLocked : String := "locked"

/-- A Go `error` value: either a `*errors.Error` of the errors dependency
(code, message, wrapped error) or any other error (`stdErr`), of which only
the `Error()` string is observable. -/
inductive GoErr
  | appErr (code : String) (msg : String) (wrapped : Option GoErr)
  | stdErr (msg : String)

/-- The `Error()` method of the errors dependency: the message if set,
otherwise the wrapped error's message (the `Op` field is not modelled; it
is never set anywhere in this repository). -/
def GoErr.message : GoErr → String
  | .appErr _ msg w => if msg ≠ "" then msg else (match w with
      | some e => GoErr.message e
      | none => "")
  | .stdErr m => m

/-- `errors.ErrorCode` of the errors dependency, for a non-nil error: the
code of a `*errors.Error` if non-empty, else the code of its wrapped error,
else `EInternal`; any non-`*errors.Error` value yields `EInternal`. -/
def ErrorCode : GoErr → String
  | .appErr c _ w =>
    if c ≠ "" then c
    else (match w with
      | some e => ErrorCode e
      | none => EInternal)
  | .stdErr _ => EInternal

/-- The signal carried by `ctx.Err()`: Go's `context.Canceled` or
`context.DeadlineExceeded`; `none` models a nil `ctx.Err()`. -/
inductive CtxSignal
  | canceled
  | deadlineExceeded
deriving DecidableEq, Repr

/-- The `apiErrorToStatusCode` map of `error_handler.go`, in source listing
order.  Note the two status collisions: `EInvalid` and `EEmptyValue` both
map to 400, `EUnprocessableEntity` and `EConflict` both map to 422. -/
def codeStatusPairs : List (String × Nat) :=
  [(EInternal, 500), (ENotImplemented, 501), (EBadGateway, 502),
   (EInvalid, 400), (EUnprocessableEntity, 422), (EEmptyValue, 400),
   (EConflict, 422), (ENotFound, 404), (EUnavailable, 503),
   (EForbidden, 403), (ETooManyRequests, 429), (EUnauthorized, 401),
   (EMethodNotAllowed, 405), (ETooLarge, 413), (EPaymentRequired, 402),
   (EUpgradeRequired, 426), (EStatusLocked, 423)]

/-- Map lookup in `apiErrorToStatusCode` (the keys are pairwise distinct,
so list lookup agrees with the Go map). -/
def apiErrorToStatusCode (code : String) : Option Nat :=
  codeStatusPairs.lookup code

/-- The reverse map `httpStatusCodeToError`, built by the package `init`
function by inverting `apiErrorToStatusCode` with last-writer-wins.  Go map
iteration order is unspecified; this definition fixes the source listing
order (so 400 ↦ `EEmptyValue`, 422 ↦ `EConflict`).  Theorems that depend on
the reverse table are proved for every admissible inversion
(`IsReverseTable`), so the choice of order is immaterial. -/
def httpStatusCodeToError (statusCode : Nat) : Option String :=
  ((codeStatusPairs.filter (fun p => p.2 == statusCode)).getLast?).map (·.1)

/-- `StatusCodeToErrorCode` of `error_handler.go`: the reverse-table entry,
or `EInternal` if the status is unmapped. -/
def StatusCodeToErrorCode (statusCode : Nat) : String :=
  (httpStatusCodeToError statusCode).getD EInternal

/-- `ErrorCodeToStatusCode` of `error_handler.go`.  The context argument is
the value of `ctx.Err()`.  The source checks `context.DeadlineExceeded`
first, then `context.Canceled`, then falls back to the table with a 500
default. -/
def ErrorCodeToStatusCode (ctxErr : Option CtxSignal) (code : String) : Nat :=
  match ctxErr with
  | some .deadlineExceeded => 408
  | some .canceled => 499
  | none => (apiErrorToStatusCode code).getD 500

/-- The codes of the taxonomy (the key set of `apiErrorToStatusCode`). -/
def taxonomyCodes : List String := codeStatusPairs.map (·.1)

/-- A function is an admissible inversion of `apiErrorToStatusCode` when
every status code appearing in the forward table is mapped back to some
code that the forward table sends to that status.  Every run of the Go
`init` loop produces such a function, whatever the map iteration order. -/
def IsReverseTable (g : Nat → String) : Prop :=
  ∀ p ∈ codeStatusPairs, apiErrorToStatusCode (g p.2) = some p.2

instance : DecidablePred IsReverseTable := fun g => by
  unfold IsReverseTable; infer_instance

/-- If the forward table maps a code to a status, `ErrorCodeToStatusCode`
returns that status under a quiet context. -/
theorem errorCodeToStatusCode_of_lookup (c : String) (s : Nat)
    (h : apiErrorToStatusCode c = some s) :
    ErrorCodeToStatusCode none c = s := by
  simp [ErrorCodeToStatusCode, h]

/-- Every taxonomy code has a forward-table entry. -/
theorem taxonomy_lookup :
    ∀ c ∈ taxonomyCodes,
      ∃ p ∈ codeStatusPairs, p.1 = c ∧ apiErrorToStatusCode c = some p.2 := by
  decide

/-- C1: for every error code string, `ErrorCodeToStatusCode` returns 499
when the context is cancelled and 408 when its deadline is exceeded,
regardless of the code; with neither signal it returns the taxonomy-mapped
status, or 500 if the code is unrecognized. -/
theorem claim_C1_resolve_status (code : String) :
    ErrorCodeToStatusCode (some .canceled) code = 499
    ∧ ErrorCodeToStatusCode (some .deadlineExceeded) code = 408
    ∧ ErrorCodeToStatusCode none code = (apiErrorToStatusCode code).getD 500 := by
  refine ⟨rfl, rfl, rfl⟩

/-- C2: for every taxonomy code and every admissible inversion of the
forward table (covering every Go map iteration order, in particular the
collisions 400 and 422 each keeping a single preimage), the round trip
code ↦ status ↦ code ↦ status is stable under a quiet context. -/
theorem claim_C2_roundtrip_stable (g : Nat → String) (hg : IsReverseTable g)
    (code : String) (hc : code ∈ taxonomyCodes) :
    ErrorCodeToStatusCode none (g (ErrorCodeToStatusCode none code))
      = ErrorCodeToStatusCode none code := by
  obtain ⟨p, hp, _, hlook⟩ := taxonomy_lookup code hc
  rw [errorCodeToStatusCode_of_lookup code p.2 hlook]
  exact errorCodeToStatusCode_of_lookup _ _ (hg p hp)

/-- Witness for C2: the concrete reverse table of the source, applied to
the code "conflict", one of the two codes whose status (422) has two
preimages. -/
theorem claim_C2_roundtrip_stable_witness :
    ErrorCodeToStatusCode none
        (StatusCodeToErrorCode (ErrorCodeToStatusCode none "conflict"))
      = ErrorCodeToStatusCode none "conflict" :=
  claim_C2_roundtrip_stable StatusCodeToErrorCode (by decide) "conflict" (by decide)

/-- Identifies the Go writer object a write or close call goes through:
the `http.ResponseWriter` itself (`direct`), the `noopCloser` wrapping it,
or a `gzip.Writer` wrapping it. -/
inductive WriterId
  | direct
  | noopW
  | gzipW
deriving DecidableEq, Repr

/-- One observable call on an `http.ResponseWriter` (or a write-closer
wrapped around it): `Header().Set`, `WriteHeader`, a body write, or a
`Close` of a wrapping closer.  Log calls are not events. -/
inductive Event
  | setHeader (key value : String)
  | writeHeader (status : Nat)
  | writeBytes (w : WriterId) (b : String)
  | close (w : WriterId)
deriving DecidableEq, Repr

/-- An operation performed on a `StatusResponseWriter` from
`middleware.go`: `WriteHeader`, `Write` or `Flush`.  The status is a Go
`int`, hence `Int`. -/
inductive WOp
  | writeHeader (status : Int)
  | write (b : String)
  | flush
deriving DecidableEq, Repr

/-- The mutable state of a `StatusResponseWriter`: captured status code
and byte count.  The model sink accepts every byte (the underlying
`http.ResponseWriter` is external), so `Write` adds the full length. -/
structure StatusResponseWriter where
  statusCode : Int
  responseBytes : Nat
deriving DecidableEq, Repr

/-- `NewStatusResponseWriter` of `middleware.go`: Go zero values. -/
def NewStatusResponseWriter : StatusResponseWriter :=
  { statusCode := 0, responseBytes := 0 }

/-- One step of `StatusResponseWriter`: `WriteHeader` records the status,
`Write` accumulates the reported byte count, `Flush` changes nothing. -/
def StatusResponseWriter.applyOp (w : StatusResponseWriter) : WOp → StatusResponseWriter
  | .writeHeader s => { w with statusCode := s }
  | .write b => { w with responseBytes := w.responseBytes + b.length }
  | .flush => w

/-- Runs a sequence of operations on a fresh `StatusResponseWriter`. -/
def runOps (ops : List WOp) : StatusResponseWriter :=
  ops.foldl StatusResponseWriter.applyOp NewStatusResponseWriter

/-- `StatusResponseWriter.Code` of `middleware.go`: 200 when the captured
status is still the zero value 0, the captured status otherwise. -/
def StatusResponseWriter.Code (w : StatusResponseWriter) : Int :=
  if w.statusCode = 0 then 200 else w.statusCode

/-- The last value passed to `WriteHeader` in a sequence of operations, if
any (specification-side helper for stating C5). -/
def lastWriteHeader : List WOp → Option Int
  | [] => none
  | .writeHeader s :: rest =>
    (match lastWriteHeader rest with
     | some v => some v
     | none => some s)
  | _ :: rest => lastWriteHeader rest

/-- The captured status after running operations from any start state is
the last `WriteHeader` argument, or the start state's status. -/
theorem statusCode_runFrom (ops : List WOp) :
    ∀ w : StatusResponseWriter,
      (ops.foldl StatusResponseWriter.applyOp w).statusCode
        = (lastWriteHeader ops).getD w.statusCode := by
  induction ops with
  | nil => intro w; rfl
  | cons op rest ih =>
    intro w
    cases op with
    | writeHeader s =>
      simp only [List.foldl_cons, lastWriteHeader]
      rw [ih]
      cases lastWriteHeader rest <;> rfl
    | write b =>
      simp only [List.foldl_cons, lastWriteHeader]
      rw [ih]
      rfl
    | flush =>
      simp only [List.foldl_cons, lastWriteHeader]
      rw [ih]
      rfl

/-- C5 counterexample: after the single operation `WriteHeader 0` (a Go
`int` is free to be 0), `Code()` returns 200, not the last value passed to
`WriteHeader`. -/
theorem claim_C5_counterexample :
    (runOps [WOp.writeHeader 0]).Code = 200 ∧ (runOps [WOp.writeHeader 0]).Code ≠ 0 := by
  refine ⟨rfl, by decide⟩

/-- C5 (amended): `Code()` returns 200 if `WriteHeader` was never called,
and the last value passed to `WriteHeader` otherwise — unless that last
value was 0, the Go zero value, which is indistinguishable from never
calling `WriteHeader` and also yields 200. -/
theorem claim_C5_code_tracks_last_writeHeader (ops : List WOp) :
    (runOps ops).Code
      = (match lastWriteHeader ops with
         | none => 200
         | some v => if v = 0 then 200 else v) := by
  unfold runOps StatusResponseWriter.Code
  rw [statusCode_runFrom]
  cases lastWriteHeader ops with
  | none => rfl
  | some v =>
    by_cases h : v = 0 <;> simp [h, NewStatusResponseWriter]

/-- An HTTP request as consulted by the middleware: a method and a header
map.  Headers are an association list in canonical key form; `Get` on an
absent key yields the empty string, as in Go. -/
structure Request where
  method : String
  headers : List (String × String)

/-- `r.Header.Get(key)`: the first value for the key, or the empty
string. -/
def Request.headerGet (r : Request) (key : String) : String :=
  (r.headers.lookup key).getD ""

/-- The outcome of running a middleware-wrapped handler: the events
written to the response, and whether the wrapped handler was invoked. -/
structure MWResult where
  events : List Event
  nextInvoked : Bool
deriving DecidableEq, Repr

/-- `SetCORS` of `middleware.go`.  The wrapped handler is modelled as a
function from the request to the events it writes. -/
def SetCORS (next : Request → List Event) (r : Request) : MWResult :=
  let originEvents :=
    if r.headerGet "Origin" ≠ "" then
      [Event.setHeader "Access-Control-Allow-Origin" (r.headerGet "Origin")]
    else []
  if r.method = "OPTIONS" then
    { events := originEvents
        ++ [Event.setHeader "Access-Control-Allow-Methods"
              "POST, GET, OPTIONS, PUT, DELETE, PATCH",
            Event.setHeader "Access-Control-Allow-Headers"
              "Accept, Content-Type, Content-Length, Accept-Encoding, Authorization, User-Agent",
            Event.writeHeader 204],
      nextInvoked := false }
  else
    { events := originEvents ++ next r, nextInvoked := true }

/-- C7: on an OPTIONS request with an Origin header, `SetCORS` responds
204 with the three CORS headers and never invokes the wrapped handler; on
a non-OPTIONS request with an Origin header it invokes the wrapped handler
and still echoes the Origin into Access-Control-Allow-Origin. -/
theorem claim_C7_setcors (next₁ next₂ : Request → List Event) (r₁ r₂ : Request)
    (h₁ : r₁.headerGet "Origin" ≠ "") (h₂ : r₁.method = "OPTIONS")
    (h₃ : r₂.headerGet "Origin" ≠ "") (h₄ : r₂.method ≠ "OPTIONS") :
    ((SetCORS next₁ r₁).nextInvoked = false
      ∧ (SetCORS next₁ r₁).events
          = [Event.setHeader "Access-Control-Allow-Origin" (r₁.headerGet "Origin"),
             Event.setHeader "Access-Control-Allow-Methods"
               "POST, GET, OPTIONS, PUT, DELETE, PATCH",
             Event.setHeader "Access-Control-Allow-Headers"
               "Accept, Content-Type, Content-Length, Accept-Encoding, Authorization, User-Agent",
             Event.writeHeader 204])
    ∧ ((SetCORS next₂ r₂).nextInvoked = true
      ∧ Event.setHeader "Access-Control-Allow-Origin" (r₂.headerGet "Origin")
          ∈ (SetCORS next₂ r₂).events) := by
  constructor
  · constructor
    · simp [SetCORS, h₁, h₂]
    · simp [SetCORS, h₁, h₂]
  · constructor
    · simp [SetCORS, h₄]
    · simp [SetCORS, h₃, h₄]

/-- Witness for C7: a concrete preflight request and a concrete GET, both
with Origin "https://a.example". -/
theorem claim_C7_setcors_witness :
    ((SetCORS (fun _ => []) ⟨"OPTIONS", [("Origin", "https://a.example")]⟩).nextInvoked = false
      ∧ (SetCORS (fun _ => []) ⟨"OPTIONS", [("Origin", "https://a.example")]⟩).events
          = [Event.setHeader "Access-Control-Allow-Origin"
               ((⟨"OPTIONS", [("Origin", "https://a.example")]⟩ : Request).headerGet "Origin"),
             Event.setHeader "Access-Control-Allow-Methods"
               "POST, GET, OPTIONS, PUT, DELETE, PATCH",
             Event.setHeader "Access-Control-Allow-Headers"
               "Accept, Content-Type, Content-Length, Accept-Encoding, Authorization, User-Agent",
             Event.writeHeader 204])
    ∧ ((SetCORS (fun _ => [Event.writeHeader 200]) ⟨"GET", [("Origin", "https://a.example")]⟩).nextInvoked = true
      ∧ Event.setHeader "Access-Control-Allow-Origin"
            ((⟨"GET", [("Origin", "https://a.example")]⟩ : Request).headerGet "Origin")
          ∈ (SetCORS (fun _ => [Event.writeHeader 200]) ⟨"GET", [("Origin", "https://a.example")]⟩).events) :=
  claim_C7_setcors (fun _ => []) (fun _ => [Event.writeHeader 200])
    ⟨"OPTIONS", [("Origin", "https://a.example")]⟩
    ⟨"GET", [("Origin", "https://a.example")]⟩
    (by decide) rfl (by decide) (by decide)

/-- The error response body `ErrBody` of the API helper file. -/
structure ErrBody where
  code : String
  msg : String
deriving DecidableEq, Repr

/-- The `API` configuration.  The logger is not modelled (log calls are
not events).  The three pluggable function fields are nilable in Go, hence
`Option`.  A nil `*API` receiver behaves exactly like a value whose
optional function fields are all `none`, gzip is off and pretty is on; the
claims only exercise non-nil receivers, so the receiver itself is a plain
structure. -/
structure API where
  prettyJSON : Bool
  encodeGZIP : Bool
  unmarshalErrFn : Option (String → GoErr → Option GoErr)
  okErrFn : Option (Option GoErr → Option GoErr)
  errFn : Option (Option CtxSignal → GoErr → ErrBody × Nat × Option GoErr)

/-- A functional option on `API`. -/
def APIOptFn : Type := API → API

/-- `WithPrettyJSON` option of the API helper file. -/
def WithPrettyJSON (b : Bool) : APIOptFn := fun api => { api with prettyJSON := b }

/-- `WithEncodeGZIP` option of the API helper file. -/
def WithEncodeGZIP : APIOptFn := fun api => { api with encodeGZIP := true }

/-- `WithOKErrFn` option of the API helper file. -/
def WithOKErrFn (fn : Option GoErr → Option GoErr) : APIOptFn :=
  fun api => { api with okErrFn := some fn }

/-- `WithUnmarshalErrFn` option of the API helper file. -/
def WithUnmarshalErrFn (fn : String → GoErr → Option GoErr) : APIOptFn :=
  fun api => { api with unmarshalErrFn := some fn }

/-- `WithErrFn` option of the API helper file. -/
def WithErrFn (fn : Option CtxSignal → GoErr → ErrBody × Nat × Option GoErr) : APIOptFn :=
  fun api => { api with errFn := some fn }

/-- `NewAPI` of the API helper file: defaults (pretty JSON on, gzip off,
the default unmarshal-error formatter, no `okErrFn`, the default `errFn`),
then the options applied in order. -/
def NewAPI (opts : List APIOptFn) : API :=
  opts.foldl (fun api o => o api)
    { prettyJSON := true,
      encodeGZIP := false,
      unmarshalErrFn := some (fun encoding err =>
        some (GoErr.appErr EInvalid
          ("failed to unmarshal " ++ encoding ++ ": " ++ err.message) none)),
      okErrFn := none,
      errFn := some (fun ctxErr err =>
        let msg := err.message
        let msg := if msg = "" then "an internal error has occurred" else msg
        let code := ErrorCode err
        ({ code := code, msg := msg }, ErrorCodeToStatusCode ctxErr code, none)) }

/-- `API.decode` of the API helper file.  The decoder and the target's
optional `OK()` self-validation are external to the library, so their
outcomes are inputs: `decodeRes` is the error returned by `dec.Decode(v)`
(`none` on success), and `okRes` is `none` when the target does not
implement `oker`, and `some r` when it does and `OK()` returned `r`. -/
def API.decode (a : API) (encoding : String) (decodeRes : Option GoErr)
    (okRes : Option (Option GoErr)) : Option GoErr :=
  match decodeRes with
  | some err =>
    (match a.unmarshalErrFn with
     | some fn => fn encoding err
     | none => some err)
  | none =>
    match okRes with
    | some okErr =>
      (match a.okErrFn with
       | some fn => fn okErr
       | none => okErr)
    | none => none

/-- `API.DecodeJSON` of the API helper file: `decode` with the "json"
format name and the JSON decoder's outcome. -/
def API.DecodeJSON (a : API) (decodeRes : Option GoErr)
    (okRes : Option (Option GoErr)) : Option GoErr :=
  a.decode "json" decodeRes okRes

/-- C6: with the default configuration, `DecodeJSON` on input the JSON
decoder rejects returns an Application Error with code "invalid" whose
message contains the format name "json"; and when decoding succeeds but the
target's `OK()` self-validation fails, the validation error is returned
unchanged. -/
theorem claim_C6_decode_json (e : GoErr) (okRes : Option (Option GoErr))
    (verr : GoErr) :
    (∃ m, (NewAPI []).DecodeJSON (some e) okRes
            = some (GoErr.appErr EInvalid m none)
          ∧ ∃ p q, m = p ++ "json" ++ q)
    ∧ (NewAPI []).DecodeJSON none (some (some verr)) = some verr := by
  constructor
  · refine ⟨"failed to unmarshal json: " ++ e.message, rfl,
      "failed to unmarshal ", ": " ++ e.message, ?_⟩
    rfl
  · rfl

/-- The marshal behavior of a value handed to `Respond`: the results of
`json.MarshalIndent(v, "", "\t")` and `json.Marshal(v)` (stdlib calls,
external to the library).  The two calls fail on exactly the same values;
the model keeps both results so `Respond` can pick per its pretty flag. -/
structure JValue where
  indent : Except GoErr String
  compact : Except GoErr String

/-- The `noopCloser` of the API helper file, wrapping a writer. -/
structure noopCloser where
  writer : WriterId

/-- `noopCloser.Close` of the API helper file: always returns nil. -/
def noopCloser.Close (_n : noopCloser) : Option GoErr := none

/-- The private `API.write` of the API helper file: write the status, then
the bytes through the selected write-closer, then close it; write and
close failures are only logged (the model sink is an in-memory trace, so
they do not arise). -/
def API.write (_a : API) (wc : WriterId) (status : Nat) (b : String) : List Event :=
  [Event.writeHeader status, Event.writeBytes wc b, Event.close wc]

/-- The outcome of `API.Respond`: the events it wrote to the response, and
the error it re-routed into `API.Err`, if any (the events `Err` itself then
writes are not part of `Respond`'s own trace). -/
structure RespondResult where
  events : List Event
  routed : Option GoErr

/-- `API.Respond` of the API helper file.  On 204 it writes only the
status.  Otherwise the deferred `Close()` evaluates its receiver at defer
time, so it is bound to the initial `noopCloser` even when the `writer`
variable is then replaced by a gzip writer; it runs last on every path.
Creating a gzip writer emits nothing until it is written or closed. -/
def API.Respond (a : API) (v : JValue) (status : Nat) : RespondResult :=
  if status = 204 then
    { events := [Event.writeHeader status], routed := none }
  else
    let gzipHeader :=
      if a.encodeGZIP then [Event.setHeader "Content-Encoding" "gzip"] else []
    let writer : WriterId := if a.encodeGZIP then .gzipW else .noopW
    let headerEvents :=
      gzipHeader ++ [Event.setHeader "Content-Type" "application/json; charset=utf-8"]
    match (if a.prettyJSON then v.indent else v.compact) with
    | .error err =>
      { events := headerEvents ++ [Event.close .noopW], routed := some err }
    | .ok b =>
      { events := headerEvents ++ a.write writer status b ++ [Event.close .noopW],
        routed := none }

/-- `API.Write` of the API helper file: the same 204 short-circuit and
closer selection as `Respond`, but writing caller-supplied raw bytes; it
has no failure path. -/
def API.Write (a : API) (status : Nat) (b : String) : List Event :=
  if status = 204 then [Event.writeHeader status]
  else
    let gzipHeader :=
      if a.encodeGZIP then [Event.setHeader "Content-Encoding" "gzip"] else []
    let writer : WriterId := if a.encodeGZIP then .gzipW else .noopW
    gzipHeader ++ a.write writer status b ++ [Event.close .noopW]

/-- True exactly on status-line and body-byte events. -/
def Event.isCommit : Event → Bool
  | .writeHeader _ => true
  | .writeBytes _ _ => true
  | _ => false

/-- True exactly on a `Close` of the gzip writer. -/
def Event.isGzipClose : Event → Bool
  | .close .gzipW => true
  | _ => false

/-- True exactly on a `Close` of the `noopCloser`. -/
def Event.isNoopClose : Event → Bool
  | .close .noopW => true
  | _ => false

/-- C4: for every configuration and status other than 204, when marshaling
the value fails, `Respond` itself has written no status line and no body
bytes (only headers were set), and the marshal error is re-routed through
`Err`. -/
theorem claim_C4_marshal_atomicity (a : API) (v : JValue) (status : Nat)
    (e : GoErr) (hs : status ≠ 204)
    (herr : (if a.prettyJSON then v.indent else v.compact) = .error e) :
    (a.Respond v status).events.filter Event.isCommit = []
    ∧ (a.Respond v status).routed = some e := by
  unfold API.Respond
  rw [if_neg hs, herr]
  cases hgz : a.encodeGZIP <;>
    simp [Event.isCommit, Event.isGzipClose, List.filter]

/-- Witness for C4: the default configuration, a value whose marshaling
fails with a concrete error, status 200. -/
theorem claim_C4_marshal_atomicity_witness :
    ((NewAPI []).Respond
        ⟨.error (GoErr.stdErr "cycle"), .error (GoErr.stdErr "cycle")⟩ 200).events.filter
        Event.isCommit = []
    ∧ ((NewAPI []).Respond
        ⟨.error (GoErr.stdErr "cycle"), .error (GoErr.stdErr "cycle")⟩ 200).routed
        = some (GoErr.stdErr "cycle") :=
  claim_C4_marshal_atomicity (NewAPI [])
    ⟨.error (GoErr.stdErr "cycle"), .error (GoErr.stdErr "cycle")⟩ 200
    (GoErr.stdErr "cycle") (by decide) rfl

/-- C9: `Respond` with status 204 writes exactly the 204 status line and
nothing else — no body bytes and no header mutations — for every
configuration (gzip included) and every value. -/
theorem claim_C9_no_content (a : API) (v : JValue) :
    (a.Respond v 204).events = [Event.writeHeader 204]
    ∧ (a.Respond v 204).routed = none := by
  exact ⟨rfl, rfl⟩

/-- C10: in `Respond` and `Write` with gzip enabled, the deferred close is
bound to the no-op closer captured before the gzip writer is assigned: on
each success path — `Respond` with a marshalable value, and `Write` always
— the gzip writer is closed exactly once (by the explicit close inside
`write`) and the trace ends with the deferred no-op close; on the
marshal-failure path of `Respond` the already-created gzip writer is never
closed; the no-op closer's `Close` always returns nil, and on the raw
non-gzip `Write` path the no-op closer is (harmlessly) closed twice. -/
theorem claim_C10_close_discipline (a a' : API) (v w : JValue) (status : Nat)
    (b : String) (e : GoErr) (n : noopCloser)
    (hgz : a.encodeGZIP = true) (hngz : a'.encodeGZIP = false)
    (hs : status ≠ 204)
    (hok : (if a.prettyJSON then v.indent else v.compact) = .ok b)
    (herr : (if a.prettyJSON then w.indent else w.compact) = .error e) :
    (((a.Respond v status).events.filter Event.isGzipClose).length = 1
      ∧ (a.Respond v status).events.getLast? = some (Event.close .noopW))
    ∧ (((a.Write status b).filter Event.isGzipClose).length = 1
      ∧ (a.Write status b).getLast? = some (Event.close .noopW))
    ∧ ((a.Respond w status).events.filter Event.isGzipClose).length = 0
    ∧ ((a'.Write status b).filter Event.isNoopClose).length = 2
    ∧ n.Close = none := by
  refine ⟨⟨?_, ?_⟩, ⟨?_, ?_⟩, ?_, ?_, rfl⟩
  · unfold API.Respond
    rw [if_neg hs, hok]
    simp [hgz, API.write, Event.isGzipClose, List.filter]
  · unfold API.Respond
    rw [if_neg hs, hok]
    simp [hgz, API.write]
  · unfold API.Write
    rw [if_neg hs]
    simp [hgz, API.write, Event.isGzipClose, List.filter]
  · unfold API.Write
    rw [if_neg hs]
    simp [hgz, API.write]
  · unfold API.Respond
    rw [if_neg hs, herr]
    simp [hgz, Event.isGzipClose, List.filter]
  · unfold API.Write
    rw [if_neg hs]
    simp [hngz, API.write, Event.isNoopClose, List.filter]

/-- Witness for C10: a gzip-enabled pretty configuration with a value that
marshals to "[]" and a value whose marshaling fails, status 200, and the
default configuration for the non-gzip raw write path. -/
theorem claim_C10_close_discipline_witness :
    ((((NewAPI [WithEncodeGZIP]).Respond
          ⟨.ok "[]", .ok "[]"⟩ 200).events.filter Event.isGzipClose).length = 1
      ∧ ((NewAPI [WithEncodeGZIP]).Respond
          ⟨.ok "[]", .ok "[]"⟩ 200).events.getLast? = some (Event.close .noopW))
    ∧ ((((NewAPI [WithEncodeGZIP]).Write 200 "[]").filter Event.isGzipClose).length = 1
      ∧ ((NewAPI [WithEncodeGZIP]).Write 200 "[]").getLast? = some (Event.close .noopW))
    ∧ (((NewAPI [WithEncodeGZIP]).Respond
          ⟨.error (GoErr.stdErr "cycle"), .error (GoErr.stdErr "cycle")⟩ 200).events.filter
          Event.isGzipClose).length = 0
    ∧ (((NewAPI []).Write 200 "[]").filter Event.isNoopClose).length = 2
    ∧ (noopCloser.mk .noopW).Close = none :=
  claim_C10_close_discipline (NewAPI [WithEncodeGZIP]) (NewAPI [])
    ⟨.ok "[]", .ok "[]"⟩ ⟨.error (GoErr.stdErr "cycle"), .error (GoErr.stdErr "cycle")⟩
    200 "[]" (GoErr.stdErr "cycle") (noopCloser.mk .noopW)
    rfl rfl (by decide) rfl rfl

/-- The `X-Platform-Error-Code` header constant of the API helper file. -/
def PlatformErrorCodeHeader : String := "X-Platform-Error-Code"

/-- The JSON encoding of the two-field error envelope written by
`WriteErrorResponse` (`json.Marshal` of an anonymous code/message struct).
String escaping is not modelled: the claims only exercise values without
characters that JSON escapes, for which `json.Marshal` produces exactly
this text. -/
def jsonEnvelope (code msg : String) : String :=
  "\x7b\"code\":\"" ++ code ++ "\",\"message\":\"" ++ msg ++ "\"\x7d"

/-- `WriteErrorResponse` of `error_handler.go`: set the platform error
code header and the JSON content type, write the status resolved by
`ErrorCodeToStatusCode`, and write the JSON envelope directly to the
response writer (its marshal of the fixed two-field struct cannot fail;
the write error is discarded). -/
def WriteErrorResponse (ctxErr : Option CtxSignal) (code msg : String) : List Event :=
  [Event.setHeader PlatformErrorCodeHeader code,
   Event.setHeader "Content-Type" "application/json; charset=utf-8",
   Event.writeHeader (ErrorCodeToStatusCode ctxErr code),
   Event.writeBytes .direct (jsonEnvelope code msg)]

/-- The outcome of `HandleHTTPError`: the response events, and the error
logged server-side (the warn log), if any. -/
structure HandleResult where
  events : List Event
  logged : Option GoErr

/-- `ErrorHandler.HandleHTTPError` of `error_handler.go`: nothing on a nil
error; otherwise the code is `errors.ErrorCode(err)`, the message is the
error's own message for a `*errors.Error` and the fixed generic text (with
a server-side warn log of the real error) for anything else; then
`WriteErrorResponse`. -/
def HandleHTTPError (ctxErr : Option CtxSignal) (err : Option GoErr) : HandleResult :=
  match err with
  | none => { events := [], logged := none }
  | some e =>
    let code := ErrorCode e
    match e with
    | .appErr _ _ _ =>
      { events := WriteErrorResponse ctxErr code e.message, logged := none }
    | .stdErr _ =>
      { events :=
          WriteErrorResponse ctxErr code
            "An internal error has occurred - check server logs",
        logged := some e }

/-- C8: a recognized Application Error reaches the response with its code
and message verbatim; any unrecognized error produces the fixed generic
internal-error response, so two distinct unrecognized errors are
client-indistinguishable (the real error appears only in the server-side
log). -/
theorem claim_C8_no_internal_leak (ctxErr : Option CtxSignal)
    (m₁ m₂ c msg : String) (w : Option GoErr) (hne : m₁ ≠ m₂) :
    (HandleHTTPError ctxErr (some (GoErr.stdErr m₁))).events
      = (HandleHTTPError ctxErr (some (GoErr.stdErr m₂))).events
    ∧ (HandleHTTPError ctxErr (some (GoErr.stdErr m₁))).events
      = WriteErrorResponse ctxErr EInternal
          "An internal error has occurred - check server logs"
    ∧ (HandleHTTPError ctxErr (some (GoErr.appErr c msg w))).events
      = WriteErrorResponse ctxErr (ErrorCode (GoErr.appErr c msg w))
          (GoErr.appErr c msg w).message
    ∧ (HandleHTTPError ctxErr (some (GoErr.stdErr m₁))).logged
      = some (GoErr.stdErr m₁) := by
  exact ⟨rfl, rfl, rfl, rfl⟩

/-- Witness for C8: two distinct unrecognized errors and a concrete
Application Error, under a quiet context. -/
theorem claim_C8_no_internal_leak_witness :
    (HandleHTTPError none (some (GoErr.stdErr "db password wrong"))).events
      = (HandleHTTPError none (some (GoErr.stdErr "disk offline"))).events
    ∧ (HandleHTTPError none (some (GoErr.stdErr "db password wrong"))).events
      = WriteErrorResponse none EInternal
          "An internal error has occurred - check server logs"
    ∧ (HandleHTTPError none (some (GoErr.appErr "not found" "thing gone" none))).events
      = WriteErrorResponse none (ErrorCode (GoErr.appErr "not found" "thing gone" none))
          (GoErr.appErr "not found" "thing gone" none).message
    ∧ (HandleHTTPError none (some (GoErr.stdErr "db password wrong"))).logged
      = some (GoErr.stdErr "db password wrong") :=
  claim_C8_no_internal_leak none "db password wrong" "disk offline"
    "not found" "thing gone" none (by decide)

/-- Drops leading JSON whitespace from a character list. -/
def skipWs : List Char → List Char
  | c :: rest =>
    if c = ' ' ∨ c = '\t' ∨ c = '\n' ∨ c = '\r' then skipWs rest else c :: rest
  | [] => []

/-- Reads the remainder of a JSON string literal after its opening quote;
escape sequences are rejected (the modelled inputs contain none). -/
def strLitAux : List Char → List Char → Option (String × List Char)
  | [], _ => none
  | c :: rest, acc =>
    if c = '"' then some (String.mk acc.reverse, rest)
    else if c = '\\' then none
    else strLitAux rest (c :: acc)

/-- Parses a JSON string literal. -/
def parseStringLit : List Char → Option (String × List Char)
  | '"' :: rest => strLitAux rest []
  | _ => none

/-- Parses the members of a JSON object after its opening brace, for
objects whose values are all string literals.  The fuel bounds the number
of members; each iteration consumes at least one input character, so the
list length suffices. -/
def parseMembersAux : Nat → List Char → List (String × String) →
    Option (List (String × String) × List Char)
  | 0, _, _ => none
  | fuel + 1, cs, acc =>
    match parseStringLit (skipWs cs) with
    | none => none
    | some (key, rest1) =>
      match skipWs rest1 with
      | ':' :: rest2 =>
        (match parseStringLit (skipWs rest2) with
         | none => none
         | some (val, rest3) =>
           match skipWs rest3 with
           | ',' :: rest4 => parseMembersAux fuel rest4 ((key, val) :: acc)
           | '}' :: rest4 => some (((key, val) :: acc).reverse, rest4)
           | _ => none)
      | _ => none

/-- Parses a flat JSON object with string values. -/
def parseFlatObject (cs : List Char) : Option (List (String × String) × List Char) :=
  match skipWs cs with
  | '{' :: rest =>
    (match skipWs rest with
     | '}' :: rest2 => some ([], rest2)
     | _ => parseMembersAux (rest.length + 1) rest [])
  | _ => none

/-- Models `json.Unmarshal` into a `*errors.Error` (whose `UnmarshalJSON`
in the errors dependency reads the "code" and "message" fields), restricted
to flat JSON objects with string values — the shape of every error envelope
this library produces and parses.  A field absent from the object decodes
to the empty string, overwriting the target as the dependency does.  The
failure message stands in for the stdlib's (no claim inspects it). -/
def jsonUnmarshalErrBody (s : String) : Except String (String × String) :=
  match parseFlatObject s.data with
  | some (fields, rest) =>
    if skipWs rest = [] then
      .ok ((fields.lookup "code").getD "", (fields.lookup "message").getD "")
    else .error "invalid character after top-level value"
  | none => .error "invalid character looking for beginning of value"

/-- The characters before the first occurrence of the given character. -/
def charsBefore (stop : Char) : List Char → List Char
  | [] => []
  | c :: rest => if c = stop then [] else c :: charsBefore stop rest

/-- `firstLineAsError` of `error_handler.go`: `ReadString('\n')` takes the
prefix up to and including the first newline (or the whole buffer), and the
trailing newline is trimmed — i.e. the first line. -/
def firstLineAsError (body : String) : GoErr :=
  GoErr.stdErr (String.mk (charsBefore '\n' body.data))

/-- Lowercases an ASCII letter. -/
def charLower (c : Char) : Char :=
  if 'A' ≤ c ∧ c ≤ 'Z' then Char.ofNat (c.toNat + 32) else c

/-- Trims spaces and tabs (the whitespace forms that occur in Content-Type
headers) from both ends of a character list. -/
def trimChars (cs : List Char) : List Char :=
  ((cs.dropWhile (fun c => c = ' ' ∨ c = '\t')).reverse.dropWhile
    (fun c => c = ' ' ∨ c = '\t')).reverse

/-- Models `mime.ParseMediaType` as used by `CheckError`: the part before
the first ';', trimmed and lowercased (parameter and syntax validation are
not modelled; the modelled headers are well-formed). -/
def parseMediaType (v : String) : String :=
  String.mk ((trimChars (charsBefore ';' v.data)).map charLower)

/-- An `*http.Response` as consulted by `CheckError`: status code, status
text, the `Content-Type` header ("" when absent) and the body.  Reading the
in-memory body cannot fail, so the `io.Copy` failure branch does not
arise. -/
structure HTTPResponse where
  statusCode : Nat
  status : String
  contentType : String
  body : String

/-- `CheckError` of `error_handler.go`: nil on 2xx; a generic internal
error outside 2xx/4xx/5xx; otherwise an error seeded with
`StatusCodeToErrorCode`, specialized for 415, then filled from the JSON
body or from the body's first line depending on the media type, with the
code re-seeded if JSON unmarshalling left it empty. -/
def CheckError (resp : HTTPResponse) : Option GoErr :=
  let cls := resp.statusCode / 100
  if cls = 2 then none
  else if cls ≠ 4 ∧ cls ≠ 5 then
    some (GoErr.appErr EInternal
      ("unexpected status code: " ++ toString resp.statusCode ++ " " ++ resp.status)
      none)
  else if resp.statusCode = 415 then
    some (GoErr.appErr (StatusCodeToErrorCode resp.statusCode)
      ("invalid media type: " ++ "\"" ++ resp.contentType ++ "\"") none)
  else
    let seed := StatusCodeToErrorCode resp.statusCode
    let contentType := if resp.contentType = "" then "application/json" else resp.contentType
    let mediatype := parseMediaType contentType
    let fields :=
      if mediatype = "application/json" then
        match jsonUnmarshalErrBody resp.body with
        | .ok (c, m) => (c, m, (none : Option GoErr))
        | .error jsonErr =>
          (seed, "attempted to unmarshal error as JSON but failed: " ++ "\"" ++ jsonErr ++ "\"",
           some (firstLineAsError resp.body))
      else (seed, "", some (firstLineAsError resp.body))
    let code := if fields.1 = "" then StatusCodeToErrorCode resp.statusCode else fields.1
    some (GoErr.appErr code fields.2.1 fields.2.2)

/-- C3: `CheckError` returns nil on a 2xx response; on a 404 JSON response
with body `{"code":"not found","message":"x"}` it returns the error with
code "not found" and message "x"; and on a 500 response with a non-JSON
content type and body "boom" it returns an error whose message is
"boom". -/
theorem claim_C3_check_error :
    CheckError ⟨200, "200 OK", "", ""⟩ = none
    ∧ (∃ r, CheckError ⟨404, "404 Not Found", "application/json",
          "\x7b\"code\":\"not found\",\"message\":\"x\"\x7d"⟩ = some r
        ∧ ErrorCode r = "not found" ∧ r.message = "x")
    ∧ (∃ r, CheckError ⟨500, "500 Internal Server Error", "text/plain", "boom"⟩ = some r
        ∧ r.message = "boom") := by
  refine ⟨rfl, ⟨GoErr.appErr "not found" "x" none, ?_, rfl, rfl⟩,
    ⟨GoErr.appErr "internal" "" (some (GoErr.stdErr "boom")), ?_, rfl⟩⟩
  · rfl
  · rfl
